import Mathlib

/-!
Verification development for the process-supervision core of the
project-starter extension: a shallow embedding of the supervisor
(terminalProvider.ts), the health monitor (healthChecker.ts), the
command resolver (frameworkCommands / dockerUtils) and the startup
orchestrator (startServers.ts), with theorems settling the spec claims.

JavaScript Maps are modelled as association lists with set semantics
(insert removes any previous binding for the key and appends); all
lookups agree with Map lookups because keys stay unique.  Host effects
(terminal creation, sendText, notifications, setTimeout registration)
are recorded explicitly in the state so frame conditions are provable.
-/

/-- The two supervised service slots ('frontend' | 'backend' in the source). -/
inductive SlotKind
  | frontend
  | backend
deriving DecidableEq, Repr

/-- Association-list lookup, mirroring Map.get. -/
def lookupKey {α : Type} (k : String) : List (String × α) → Option α
  | [] => none
  | p :: rest => if p.1 = k then some p.2 else lookupKey k rest

/-- Association-list deletion, mirroring Map.delete. -/
def eraseKey {α : Type} (k : String) : List (String × α) → List (String × α)
  | [] => []
  | p :: rest => if p.1 = k then eraseKey k rest else p :: eraseKey k rest

/-- Association-list update, mirroring Map.set (keys stay unique). -/
def insertKey {α : Type} (k : String) (v : α) (l : List (String × α)) : List (String × α) :=
  eraseKey k l ++ [(k, v)]

theorem lookupKey_eraseKey_self {α : Type} (k : String) (l : List (String × α)) :
    lookupKey k (eraseKey k l) = none := by
  induction l with
  | nil => rfl
  | cons p rest ih =>
    by_cases h : p.1 = k
    · simp [eraseKey, h, ih]
    · simp [eraseKey, lookupKey, h, ih]

theorem lookupKey_append {α : Type} (k : String) (l1 l2 : List (String × α)) :
    lookupKey k (l1 ++ l2) =
      match lookupKey k l1 with
      | some v => some v
      | none => lookupKey k l2 := by
  induction l1 with
  | nil => rfl
  | cons p rest ih =>
    by_cases h : p.1 = k
    · simp [lookupKey, h]
    · simp [lookupKey, h, ih]

theorem lookupKey_insertKey_self {α : Type} (k : String) (v : α) (l : List (String × α)) :
    lookupKey k (insertKey k v l) = some v := by
  simp [insertKey, lookupKey_append, lookupKey_eraseKey_self, lookupKey]

theorem lookupKey_eraseKey_ne {α : Type} (k k' : String) (l : List (String × α)) (h : k' ≠ k) :
    lookupKey k' (eraseKey k l) = lookupKey k' l := by
  induction l with
  | nil => rfl
  | cons p rest ih =>
    by_cases hp : p.1 = k
    · rw [eraseKey, if_pos hp, ih, lookupKey,
        if_neg (by rw [hp]; exact fun hh => h hh.symm)]
    · rw [eraseKey, if_neg hp, lookupKey, lookupKey]
      by_cases hq : p.1 = k'
      · rw [if_pos hq, if_pos hq]
      · rw [if_neg hq, if_neg hq, ih]

/-- The per-terminal record kept in the terminals map (TerminalInfo in the
source); the Terminal handle is modelled by a numeric identity. -/
structure TerminalInfo where
  termId : Nat
  name : String
  type : SlotKind
  cwd : String
deriving DecidableEq, Repr

/-- The value stored in lastCommands: the recorded last command with its
working directory and slot kind. -/
structure LastCommand where
  command : String
  cwd : String
  type : SlotKind
deriving DecidableEq, Repr

/-- A restart scheduled by handlePotentialCrash via setTimeout: key, delay in
milliseconds, and the captured last-command closure. -/
structure PendingRestart where
  name : String
  delayMs : Nat
  cmd : LastCommand
deriving DecidableEq, Repr

/-- State of the TerminalProvider supervisor.  terminals, outputBuffer,
restartCounts, lastCommands and autoRestartEnabled are the class fields;
nextTermId generates fresh terminal identities; pendingRestarts are the
not-yet-fired restart timers; sentTexts, errorMonitors and notifications
record the host-visible effects (sendText calls, monitorForErrors timers,
error messages shown). -/
structure ProviderState where
  terminals : List (String × TerminalInfo)
  outputBuffer : List (String × String)
  restartCounts : List (String × Nat)
  lastCommands : List (String × LastCommand)
  autoRestartEnabled : Bool
  nextTermId : Nat
  pendingRestarts : List PendingRestart
  sentTexts : List (Nat × String)
  errorMonitors : List String
  notifications : List String
deriving DecidableEq, Repr

def emptyProviderState : ProviderState :=
  ⟨[], [], [], [], false, 0, [], [], [], []⟩

namespace TerminalProvider

/-- setAutoRestart(enabled): sets the flag and nothing else. -/
def setAutoRestart (s : ProviderState) (enabled : Bool) : ProviderState :=
  { s with autoRestartEnabled := enabled }

/-- The message shown when the restart budget is exhausted. -/
def crashFailureMessage (name : String) : String :=
  "Server " ++ name ++ " crashed multiple times. Auto-restart disabled for this session."

/-- createTerminal(name, cwd, type): disposes any existing terminal with the
same name, creates a fresh one, registers it and clears its output buffer.
Returns the new terminal's identity alongside the state. -/
def createTerminal (s : ProviderState) (name cwd : String) (ty : SlotKind) :
    ProviderState × Nat :=
  let s1 :=
    match lookupKey name s.terminals with
    | some _ => { s with terminals := eraseKey name s.terminals }
    | none => s
  let info : TerminalInfo := ⟨s1.nextTermId, name, ty, cwd⟩
  ({ s1 with
      terminals := insertKey name info s1.terminals,
      outputBuffer := insertKey name "" s1.outputBuffer,
      nextTermId := s1.nextTermId + 1 }, s1.nextTermId)

/-- runCommand(terminalName, command): when the terminal exists, records the
last command (with the terminal's cwd and kind), sends the text, and starts
the error-monitoring timer; otherwise does nothing. -/
def runCommand (s : ProviderState) (terminalName command : String) : ProviderState :=
  match lookupKey terminalName s.terminals with
  | none => s
  | some info =>
    { s with
        lastCommands :=
          insertKey terminalName ⟨command, info.cwd, info.type⟩ s.lastCommands,
        sentTexts := s.sentTexts ++ [(info.termId, command)],
        errorMonitors := s.errorMonitors ++ [terminalName] }

/-- handlePotentialCrash(name): the crash handler run after a host-reported
close.  Returns unchanged when auto-restart is off or no last command is
recorded; shows the terminal-failure message when the count reached 3;
otherwise increments the count and schedules one restart after
(count + 1) * 2000 ms. -/
def handlePotentialCrash (s : ProviderState) (name : String) : ProviderState :=
  if s.autoRestartEnabled then
    match lookupKey name s.lastCommands with
    | none => s
    | some lastCmd =>
      let count := (lookupKey name s.restartCounts).getD 0
      if 3 ≤ count then
        { s with notifications := s.notifications ++ [crashFailureMessage name] }
      else
        { s with
            restartCounts := insertKey name (count + 1) s.restartCounts,
            pendingRestarts :=
              s.pendingRestarts ++ [⟨name, (count + 1) * 2000, lastCmd⟩] }
  else s

/-- First terminals entry holding the given terminal identity (the
for-loop with break in the onDidCloseTerminal listener). -/
def findByTermId (tid : Nat) : List (String × TerminalInfo) → Option (String × TerminalInfo)
  | [] => none
  | p :: rest => if p.2.termId = tid then some p else findByTermId tid rest

/-- The onDidCloseTerminal listener: finds the entry whose terminal closed,
deletes it from the map, then runs handlePotentialCrash for that key. -/
def onDidCloseTerminal (s : ProviderState) (closedId : Nat) : ProviderState :=
  match findByTermId closedId s.terminals with
  | none => s
  | some p => handlePotentialCrash { s with terminals := eraseKey p.1 s.terminals } p.1

/-- disposeTerminal(name): when the terminal exists, deletes its last-command
record (so it will not be auto-restarted) and removes it from the map. -/
def disposeTerminal (s : ProviderState) (name : String) : ProviderState :=
  match lookupKey name s.terminals with
  | none => s
  | some _ =>
    { s with
        lastCommands := eraseKey name s.lastCommands,
        terminals := eraseKey name s.terminals }

/-- disposeAll(): disposes every terminal and clears the map; last commands,
restart counts and pending restart timers are left untouched. -/
def disposeAll (s : ProviderState) : ProviderState :=
  { s with terminals := [] }

/-- Remove the first occurrence of a fired timer from the pending queue. -/
def removeTimer (t : PendingRestart) : List PendingRestart → List PendingRestart
  | [] => []
  | x :: rest => if x = t then rest else x :: removeTimer t rest

/-- The setTimeout callback scheduled by handlePotentialCrash: it creates the
terminal again with the captured cwd and kind and re-runs the captured
command, with no re-check of the active set or the auto-restart flag. -/
def fireRestartTimer (s : ProviderState) (t : PendingRestart) : ProviderState :=
  let s1 := { s with pendingRestarts := removeTimer t s.pendingRestarts }
  let created := createTerminal s1 t.name t.cmd.cwd t.cmd.type
  runCommand created.1 t.name t.cmd.command

end TerminalProvider

/-- HealthStatus from healthChecker.ts. -/
inductive HealthStatus
  | Running
  | Crashed
  | Starting
  | None
deriving DecidableEq, Repr

/-- Outcome of one HTTP probe of localhost at a port: some response arrived
(with its status code), the request errored (connection refused or any
transport error), or the 2-second timeout fired. -/
inductive ProbeOutcome
  | response (statusCode : Nat)
  | transportError
  | timeout
deriving DecidableEq, Repr

namespace HealthChecker

/-- ping(port): resolves true when the request gets any response at all,
false on an error event or on the 2-second timeout. -/
def ping : ProbeOutcome → Bool
  | ProbeOutcome.response _ => true
  | ProbeOutcome.transportError => false
  | ProbeOutcome.timeout => false

/-- The status that check(port, type) passes to the status callback once the
ping resolves. -/
def checkStatus (o : ProbeOutcome) : HealthStatus :=
  if ping o then HealthStatus.Running else HealthStatus.Crashed

/-- Monitor state: whether the 5-second interval is set, the probes started
but not yet resolved (with their eventual outcome), and the callback
invocations emitted so far. -/
structure MonitorState where
  intervalActive : Bool
  inFlight : List (SlotKind × ProbeOutcome)
  emitted : List (SlotKind × HealthStatus)
deriving DecidableEq, Repr

/-- check(port, type) up to its await point: starts a probe. -/
def check (s : MonitorState) (ty : SlotKind) (o : ProbeOutcome) : MonitorState :=
  { s with inFlight := s.inFlight ++ [(ty, o)] }

/-- A started probe resolves: the callback fires with Running or Crashed.
No guard consults intervalActive before invoking the callback. -/
def resolveProbe (s : MonitorState) : MonitorState :=
  match s.inFlight with
  | [] => s
  | (ty, o) :: rest =>
    { s with inFlight := rest, emitted := s.emitted ++ [(ty, checkStatus o)] }

/-- stopMonitoring(): clears the interval; in-flight probes are untouched. -/
def stopMonitoring (s : MonitorState) : MonitorState :=
  { s with intervalActive := false }

/-- startMonitoring(frontendPort, backendPort): stops any previous interval,
immediately starts one probe per slot, then sets the interval. -/
def startMonitoring (s : MonitorState) (fo bo : ProbeOutcome) : MonitorState :=
  let s1 := stopMonitoring s
  let s2 := check s1 SlotKind.frontend fo
  let s3 := check s2 SlotKind.backend bo
  { s3 with intervalActive := true }

/-- One firing of the 5-second interval: starts the two probes when the
interval is still set, otherwise nothing happens. -/
def tick (s : MonitorState) (fo bo : ProbeOutcome) : MonitorState :=
  if s.intervalActive then check (check s SlotKind.frontend fo) SlotKind.backend bo
  else s

end HealthChecker

/-- Frontend start-command table from frameworkCommands. -/
def FRONTEND_COMMANDS : List (String × String) :=
  [("react-vite", "npm run dev"),
   ("react-cra", "npm start"),
   ("vue", "npm run dev"),
   ("angular", "npm start"),
   ("nextjs", "npm run dev"),
   ("nuxt", "npm run dev"),
   ("svelte", "npm run dev")]

/-- Backend start-command table from frameworkCommands. -/
def BACKEND_COMMANDS : List (String × String) :=
  [("express", "npm run dev"),
   ("nestjs", "npm run start:dev"),
   ("django", "python manage.py runserver"),
   ("flask", "python -m flask run"),
   ("fastapi", "python -m uvicorn main:app --reload"),
   ("spring-boot", "mvnw spring-boot:run")]

/-- Table lookup with the generic fallback (commands[framework] || 'npm start';
every table entry is non-empty, so JS truthiness coincides with presence). -/
def defaultStartCommand (framework : String) (ty : SlotKind) : String :=
  let commands := if ty = SlotKind.frontend then FRONTEND_COMMANDS else BACKEND_COMMANDS
  (lookupKey framework commands).getD "npm start"

/-- getStartCommand(framework, type, customCommand?): returns the custom
command verbatim when the framework is 'custom' and the custom command is
truthy (present and non-empty), otherwise the table default. -/
def getStartCommand (framework : String) (ty : SlotKind) (customCommand : Option String) :
    String :=
  match customCommand with
  | some c => if framework = "custom" ∧ c ≠ "" then c else defaultStartCommand framework ty
  | none => defaultStartCommand framework ty

/-- What the filesystem probes of DockerUtils see in a working directory:
whether docker-compose.yml/.yaml exists, whether a Dockerfile exists, and the
image name derived from the directory basename. -/
structure DirProbe where
  hasDockerCompose : Bool
  hasDockerfile : Bool
  imageName : String
deriving DecidableEq, Repr

namespace DockerUtils

/-- getDockerCommand(folderPath): compose wins over a bare Dockerfile;
returns null when neither file exists. -/
def getDockerCommand (d : DirProbe) : Option String :=
  if d.hasDockerCompose then some "docker-compose up"
  else if d.hasDockerfile then
    some ("docker build -t " ++ d.imageName ++ " . && docker run -p 8080:8080 " ++ d.imageName)
  else none

end DockerUtils

/-- Per-slot configuration (paths and commands default to '' upstream). -/
structure SlotConfig where
  path : String
  framework : String
  customCommand : String
deriving DecidableEq, Repr

/-- One profile's stored command overrides (empty string means none). -/
structure ProfileCommands where
  frontend : String
  backend : String
deriving DecidableEq, Repr

/-- The configuration read surface consumed by startServers. -/
structure ProjectConfig where
  frontend : SlotConfig
  backend : SlotConfig
  activeProfile : String
  profiles : List (String × ProfileCommands)
  useDocker : Bool
  autoRestart : Bool
deriving DecidableEq, Repr

/-- The user's choice at the port-conflict prompt (dismissed models closing
the notification, which the code treats like Cancel). -/
inductive PortSelection
  | killProcess
  | ignore
  | cancel
  | dismissed
deriving DecidableEq, Repr

/-- The user's choice at the missing-dependencies prompt. -/
inductive DepsSelection
  | installNow
  | skip
  | cancel
  | dismissed
deriving DecidableEq, Repr

/-- Environment facts and prompt answers consumed for one slot during
startup. -/
structure SlotEnv where
  dir : DirProbe
  portAvailable : Bool
  portSelection : PortSelection
  killSucceeds : Bool
  hasDeps : Bool
  depsSelection : DepsSelection
deriving DecidableEq, Repr

/-- How far startServers got: which gate aborted it, or the pair of commands
it ran in the two created terminals. -/
inductive StartOutcome
  | notConfigured
  | noWorkspace
  | abortedPort (slot : SlotKind)
  | abortedDeps (slot : SlotKind)
  | started (frontendCommand backendCommand : String)
deriving DecidableEq, Repr

namespace StartServers

/-- The checkPort closure in startServers: true means startup may continue.
A failed kill returns false just like Cancel or dismissal; only Ignore (or a
successful kill, or a free port) lets startup continue. -/
def checkPort (portAvailable : Bool) (selection : PortSelection) (killSucceeds : Bool) :
    Bool :=
  if portAvailable then true
  else
    match selection with
    | PortSelection.killProcess => killSucceeds
    | PortSelection.ignore => true
    | PortSelection.cancel => false
    | PortSelection.dismissed => false

/-- The checkDeps closure in startServers: true means startup may continue. -/
def checkDeps (hasDeps : Bool) (selection : DepsSelection) : Bool :=
  if hasDeps then true
  else
    match selection with
    | DepsSelection.installNow => false
    | DepsSelection.skip => true
    | DepsSelection.cancel => false
    | DepsSelection.dismissed => false

/-- The command composition in startServers for one slot, in source order:
resolver result first, then the active profile's override when that field is
truthy (non-empty), then the Docker-derived command when Docker mode is on
and getDockerCommand found a compose file or Dockerfile. -/
def composeSlotCommand (slot : SlotConfig) (ty : SlotKind)
    (profile : Option ProfileCommands) (useDocker : Bool) (d : DirProbe) : String :=
  let cmd := getStartCommand slot.framework ty (some slot.customCommand)
  let cmd :=
    match profile with
    | some p =>
      let override := if ty = SlotKind.frontend then p.frontend else p.backend
      if override ≠ "" then override else cmd
    | none => cmd
  if useDocker then
    match DockerUtils.getDockerCommand d with
    | some dockerCmd => dockerCmd
    | none => cmd
  else cmd

/-- startServers, as a function of the configuration, workspace presence and
the per-slot environments: validation, command composition, the two port
gates, the two dependency gates, then the started commands. -/
def startServers (config : ProjectConfig) (hasWorkspace : Bool) (fenv benv : SlotEnv) :
    StartOutcome :=
  if config.frontend.path = "" ∨ config.backend.path = "" then StartOutcome.notConfigured
  else if hasWorkspace = false then StartOutcome.noWorkspace
  else
    let profile := lookupKey config.activeProfile config.profiles
    let frontendCommand :=
      composeSlotCommand config.frontend SlotKind.frontend profile config.useDocker fenv.dir
    let backendCommand :=
      composeSlotCommand config.backend SlotKind.backend profile config.useDocker benv.dir
    if checkPort fenv.portAvailable fenv.portSelection fenv.killSucceeds = false then
      StartOutcome.abortedPort SlotKind.frontend
    else if checkPort benv.portAvailable benv.portSelection benv.killSucceeds = false then
      StartOutcome.abortedPort SlotKind.backend
    else if checkDeps fenv.hasDeps fenv.depsSelection = false then
      StartOutcome.abortedDeps SlotKind.frontend
    else if checkDeps benv.hasDeps benv.depsSelection = false then
      StartOutcome.abortedDeps SlotKind.backend
    else StartOutcome.started frontendCommand backendCommand

end StartServers

/-! Claim theorems. -/

/-- Claim C7: every HealthMonitor probe reports Running for any HTTP response
(including an error status such as 500) and Crashed for a timeout or any
transport error (connection refused included); resolving a probe emits exactly
that status, and the monitor never emits Starting or None. -/
theorem probe_reports_running_or_crashed :
    (∀ code : Nat,
      HealthChecker.checkStatus (ProbeOutcome.response code) = HealthStatus.Running) ∧
    HealthChecker.checkStatus (ProbeOutcome.response 500) = HealthStatus.Running ∧
    HealthChecker.checkStatus ProbeOutcome.timeout = HealthStatus.Crashed ∧
    HealthChecker.checkStatus ProbeOutcome.transportError = HealthStatus.Crashed ∧
    (∀ o : ProbeOutcome,
      HealthChecker.checkStatus o ≠ HealthStatus.Starting ∧
      HealthChecker.checkStatus o ≠ HealthStatus.None) ∧
    (∀ (ia : Bool) (r : List (SlotKind × ProbeOutcome))
        (e : List (SlotKind × HealthStatus)) (ty : SlotKind) (o : ProbeOutcome),
      HealthChecker.resolveProbe ⟨ia, (ty, o) :: r, e⟩ =
        ⟨ia, r, e ++ [(ty, HealthChecker.checkStatus o)]⟩) := by
  refine ⟨fun code => rfl, rfl, rfl, rfl, fun o => ?_, fun ia r e ty o => rfl⟩
  cases o <;> simp [HealthChecker.checkStatus, HealthChecker.ping]

/-- Claim C9: for every slot kind, a non-empty custom command is returned
verbatim by getStartCommand for the 'custom' framework, and the empty custom
command falls back to the generic default 'npm start', which is non-empty. -/
theorem custom_command_verbatim (ty : SlotKind) (c : String) (h : c ≠ "") :
    getStartCommand "custom" ty (some c) = c ∧
    getStartCommand "custom" ty (some "") = defaultStartCommand "custom" ty ∧
    getStartCommand "custom" ty (some "") = "npm start" ∧
    getStartCommand "custom" ty (some "") ≠ "" := by
  have h1 : getStartCommand "custom" ty (some c) = c := by
    rw [getStartCommand, if_pos ⟨rfl, h⟩]
  have h2 : getStartCommand "custom" ty (some "") = defaultStartCommand "custom" ty := by
    rw [getStartCommand, if_neg (fun hc => hc.2 rfl)]
  have h3 : defaultStartCommand "custom" ty = "npm start" := by
    cases ty <;> decide
  exact ⟨h1, h2, h2.trans h3, by rw [h2, h3]; decide⟩

/-- Witness for C9 at both slot kinds and concrete custom commands. -/
theorem custom_command_verbatim_witness :
    (getStartCommand "custom" SlotKind.frontend (some "foo") = "foo" ∧
     getStartCommand "custom" SlotKind.frontend (some "") =
       defaultStartCommand "custom" SlotKind.frontend ∧
     getStartCommand "custom" SlotKind.frontend (some "") = "npm start" ∧
     getStartCommand "custom" SlotKind.frontend (some "") ≠ "") ∧
    (getStartCommand "custom" SlotKind.backend (some "cargo run") = "cargo run" ∧
     getStartCommand "custom" SlotKind.backend (some "") =
       defaultStartCommand "custom" SlotKind.backend ∧
     getStartCommand "custom" SlotKind.backend (some "") = "npm start" ∧
     getStartCommand "custom" SlotKind.backend (some "") ≠ "") :=
  ⟨custom_command_verbatim SlotKind.frontend "foo" (by decide),
   custom_command_verbatim SlotKind.backend "cargo run" (by decide)⟩

/-- Claim C10: runCommand on a name with no registered terminal leaves the
supervisor state completely unchanged: no text is sent, no last-command
record is written, no error-monitoring timer is started. -/
theorem run_command_unknown_key_noop (s : ProviderState) (name command : String)
    (h : lookupKey name s.terminals = none) :
    TerminalProvider.runCommand s name command = s := by
  simp [TerminalProvider.runCommand, h]

/-- Witness for C10: running a command with no terminal registered changes
nothing. -/
theorem run_command_unknown_key_noop_witness :
    TerminalProvider.runCommand emptyProviderState "front" "npm run dev" =
      emptyProviderState :=
  run_command_unknown_key_noop emptyProviderState "front" "npm run dev" rfl

theorem findByTermId_eq_none (tid : Nat) (l : List (String × TerminalInfo))
    (h : ∀ p ∈ l, p.2.termId ≠ tid) : TerminalProvider.findByTermId tid l = none := by
  induction l with
  | nil => rfl
  | cons p rest ih =>
    rw [TerminalProvider.findByTermId, if_neg (h p (List.mem_cons_self p rest))]
    exact ih fun q hq => h q (List.mem_cons_of_mem p hq)

theorem handlePotentialCrash_no_record (s : ProviderState) (name : String)
    (h : lookupKey name s.lastCommands = none) :
    TerminalProvider.handlePotentialCrash s name = s := by
  unfold TerminalProvider.handlePotentialCrash
  rw [h]
  cases s.autoRestartEnabled <;> rfl

/-- Claim C5: disposeTerminal removes the key's last-command record, so a
host-reported close of that key's (disposed) session arriving afterwards
changes nothing, and even a direct crash-handler call for the key schedules
no restart. -/
theorem stop_then_close_never_restarts (s : ProviderState) (key : String)
    (info : TerminalInfo)
    (hkey : lookupKey key s.terminals = some info)
    (hid : ∀ p ∈ (TerminalProvider.disposeTerminal s key).terminals,
      p.2.termId ≠ info.termId) :
    lookupKey key (TerminalProvider.disposeTerminal s key).lastCommands = none ∧
    TerminalProvider.onDidCloseTerminal (TerminalProvider.disposeTerminal s key)
        info.termId =
      TerminalProvider.disposeTerminal s key ∧
    (∀ s' : ProviderState, lookupKey key s'.lastCommands = none →
      TerminalProvider.handlePotentialCrash s' key = s') := by
  have hdis : TerminalProvider.disposeTerminal s key =
      { s with
          lastCommands := eraseKey key s.lastCommands,
          terminals := eraseKey key s.terminals } := by
    rw [TerminalProvider.disposeTerminal, hkey]
  refine ⟨?_, ?_, fun s' h' => handlePotentialCrash_no_record s' key h'⟩
  · rw [hdis]
    exact lookupKey_eraseKey_self key s.lastCommands
  · rw [TerminalProvider.onDidCloseTerminal,
      findByTermId_eq_none info.termId (TerminalProvider.disposeTerminal s key).terminals hid]

/-- Witness for C5 at a concrete two-terminal state. -/
theorem stop_then_close_never_restarts_witness :
    lookupKey "front"
        (TerminalProvider.disposeTerminal
          { emptyProviderState with
              terminals :=
                [("front", ⟨1, "front", SlotKind.frontend, "/f"⟩),
                 ("back", ⟨2, "back", SlotKind.backend, "/b"⟩)],
              lastCommands := [("front", ⟨"npm run dev", "/f", SlotKind.frontend⟩)],
              autoRestartEnabled := true,
              nextTermId := 3 }
          "front").lastCommands = none ∧
    TerminalProvider.onDidCloseTerminal
        (TerminalProvider.disposeTerminal
          { emptyProviderState with
              terminals :=
                [("front", ⟨1, "front", SlotKind.frontend, "/f"⟩),
                 ("back", ⟨2, "back", SlotKind.backend, "/b"⟩)],
              lastCommands := [("front", ⟨"npm run dev", "/f", SlotKind.frontend⟩)],
              autoRestartEnabled := true,
              nextTermId := 3 }
          "front") 1 =
      TerminalProvider.disposeTerminal
        { emptyProviderState with
            terminals :=
              [("front", ⟨1, "front", SlotKind.frontend, "/f"⟩),
               ("back", ⟨2, "back", SlotKind.backend, "/b"⟩)],
            lastCommands := [("front", ⟨"npm run dev", "/f", SlotKind.frontend⟩)],
            autoRestartEnabled := true,
            nextTermId := 3 }
        "front" := by
  have h := stop_then_close_never_restarts
    { emptyProviderState with
        terminals :=
          [("front", ⟨1, "front", SlotKind.frontend, "/f"⟩),
           ("back", ⟨2, "back", SlotKind.backend, "/b"⟩)],
        lastCommands := [("front", ⟨"npm run dev", "/f", SlotKind.frontend⟩)],
        autoRestartEnabled := true,
        nextTermId := 3 }
    "front" ⟨1, "front", SlotKind.frontend, "/f"⟩ (by decide) (by decide)
  exact ⟨h.1, h.2.1⟩

/-- Counterexample to claim C8: with one probe in flight, stopMonitoring
returns, the probe then resolves, and the status callback still fires (a
Crashed emission is appended after stopMonitoring returned). -/
theorem inflight_probe_fires_after_stop :
    HealthChecker.resolveProbe
        (HealthChecker.stopMonitoring
          ⟨true, [(SlotKind.backend, ProbeOutcome.timeout)], []⟩) =
      ⟨false, [], [(SlotKind.backend, HealthStatus.Crashed)]⟩ ∧
    [(SlotKind.backend, HealthStatus.Crashed)] ≠
      ([] : List (SlotKind × HealthStatus)) := by decide

/-- Claim C8 as amended: stopMonitoring cancels the interval (a later tick
starts no probe) and fires no callback itself, but a probe already in flight
when stopMonitoring was called still fires the status callback once when it
resolves. -/
theorem stop_monitoring_cancels_interval_not_inflight (s : HealthChecker.MonitorState) :
    (HealthChecker.stopMonitoring s).intervalActive = false ∧
    (HealthChecker.stopMonitoring s).emitted = s.emitted ∧
    (HealthChecker.stopMonitoring s).inFlight = s.inFlight ∧
    (∀ fo bo : ProbeOutcome,
      HealthChecker.tick (HealthChecker.stopMonitoring s) fo bo =
        HealthChecker.stopMonitoring s) ∧
    (∀ (r : List (SlotKind × ProbeOutcome)) (e : List (SlotKind × HealthStatus))
        (ty : SlotKind) (o : ProbeOutcome),
      HealthChecker.resolveProbe ⟨false, (ty, o) :: r, e⟩ =
        ⟨false, r, e ++ [(ty, HealthChecker.checkStatus o)]⟩) := by
  refine ⟨rfl, rfl, rfl, fun fo bo => ?_, fun r e ty o => rfl⟩
  simp [HealthChecker.tick, HealthChecker.stopMonitoring]

/-- A configuration with a non-empty dev-profile override for the frontend
and Docker mode enabled. -/
def profileDockerConfig : ProjectConfig :=
  { frontend := ⟨"front", "react-vite", ""⟩,
    backend := ⟨"back", "express", ""⟩,
    activeProfile := "dev",
    profiles := [("dev", ⟨"npm run special", ""⟩)],
    useDocker := true,
    autoRestart := false }

/-- Frontend slot environment whose working directory holds a compose file;
all gates pass. -/
def composeDirEnv : SlotEnv :=
  ⟨⟨true, false, "front"⟩, true, PortSelection.ignore, true, true, DepsSelection.skip⟩

/-- Backend slot environment with no Docker files; all gates pass. -/
def plainDirEnv : SlotEnv :=
  ⟨⟨false, false, "back"⟩, true, PortSelection.ignore, true, true, DepsSelection.skip⟩

/-- Counterexample to claim C2: with a non-empty frontend profile override
and Docker mode enabled over a compose directory, the command actually run
for the frontend is the Docker command, not the profile override — the
Docker override is applied after (and therefore over) the profile one. -/
theorem docker_beats_profile_counterexample :
    StartServers.startServers profileDockerConfig true composeDirEnv plainDirEnv =
      StartOutcome.started "docker-compose up" "npm run dev" ∧
    "docker-compose up" ≠ "npm run special" := by decide

/-- Claim C2 as amended: the precedence actually implemented is
Docker-derived command over non-empty profile override over resolver result:
when Docker mode is on and the directory yields a Docker command it wins
regardless of the profile; otherwise a non-empty profile override wins;
otherwise the CommandResolver result is used. -/
theorem docker_over_profile_precedence (slot : SlotConfig) (ty : SlotKind)
    (p : ProfileCommands) (profile : Option ProfileCommands) (d : DirProbe)
    (dcmd : String) :
    (DockerUtils.getDockerCommand d = some dcmd →
      StartServers.composeSlotCommand slot ty profile true d = dcmd) ∧
    ((if ty = SlotKind.frontend then p.frontend else p.backend) ≠ "" →
      StartServers.composeSlotCommand slot ty (some p) false d =
        (if ty = SlotKind.frontend then p.frontend else p.backend) ∧
      (DockerUtils.getDockerCommand d = none →
        StartServers.composeSlotCommand slot ty (some p) true d =
          (if ty = SlotKind.frontend then p.frontend else p.backend))) ∧
    StartServers.composeSlotCommand slot ty none false d =
      getStartCommand slot.framework ty (some slot.customCommand) ∧
    ((if ty = SlotKind.frontend then p.frontend else p.backend) = "" →
      StartServers.composeSlotCommand slot ty (some p) false d =
        getStartCommand slot.framework ty (some slot.customCommand)) := by
  refine ⟨fun h => ?_, fun h => ⟨?_, fun hd => ?_⟩, ?_, fun h => ?_⟩
  · simp [StartServers.composeSlotCommand, h]
  · simp [StartServers.composeSlotCommand, h]
  · simp [StartServers.composeSlotCommand, h, hd]
  · simp [StartServers.composeSlotCommand]
  · simp [StartServers.composeSlotCommand, h]

/-- Witness for C2's amended precedence at concrete inputs: Docker beats the
profile override, the profile override beats the resolver, and with no
profile and no Docker files the resolver result is used. -/
theorem docker_over_profile_precedence_witness :
    StartServers.composeSlotCommand ⟨"front", "react-vite", ""⟩ SlotKind.frontend
        (some ⟨"npm run special", ""⟩) true ⟨true, false, "front"⟩ =
      "docker-compose up" ∧
    StartServers.composeSlotCommand ⟨"front", "react-vite", ""⟩ SlotKind.frontend
        (some ⟨"npm run special", ""⟩) false ⟨true, false, "front"⟩ =
      (if SlotKind.frontend = SlotKind.frontend then "npm run special" else "") ∧
    StartServers.composeSlotCommand ⟨"front", "react-vite", ""⟩ SlotKind.frontend
        none false ⟨false, false, "front"⟩ =
      getStartCommand "react-vite" SlotKind.frontend (some "") := by
  refine ⟨?_, ?_, ?_⟩
  · exact (docker_over_profile_precedence ⟨"front", "react-vite", ""⟩ SlotKind.frontend
      ⟨"npm run special", ""⟩ (some ⟨"npm run special", ""⟩) ⟨true, false, "front"⟩
      "docker-compose up").1 (by decide)
  · exact ((docker_over_profile_precedence ⟨"front", "react-vite", ""⟩ SlotKind.frontend
      ⟨"npm run special", ""⟩ (some ⟨"npm run special", ""⟩) ⟨true, false, "front"⟩
      "docker-compose up").2.1 (by decide)).1
  · exact (docker_over_profile_precedence ⟨"front", "react-vite", ""⟩ SlotKind.frontend
      ⟨"npm run special", ""⟩ none ⟨false, false, "front"⟩ "docker-compose up").2.2.1

/-- A valid configuration with Docker mode off. -/
def basicConfig : ProjectConfig :=
  { frontend := ⟨"front", "react-vite", ""⟩,
    backend := ⟨"back", "express", ""⟩,
    activeProfile := "dev",
    profiles := [],
    useDocker := false,
    autoRestart := false }

/-- Frontend slot environment where the port is busy, the user chooses to
kill the occupant, and the kill fails. -/
def killFailEnv : SlotEnv :=
  ⟨⟨false, false, "front"⟩, false, PortSelection.killProcess, false, true,
    DepsSelection.skip⟩

/-- Counterexample to claim C6: when the user chooses to terminate the port's
occupant and killProcessOnPort returns false, checkPort returns false and
startServers aborts (it does not continue with a warning). -/
theorem kill_failure_aborts_counterexample :
    StartServers.checkPort false PortSelection.killProcess false = false ∧
    StartServers.startServers basicConfig true killFailEnv plainDirEnv =
      StartOutcome.abortedPort SlotKind.frontend := by decide

/-- Claim C6 as amended: a failed port-free operation is reported and is
fatal to startup — checkPort returns false and startServers aborts for both
slots at the frontend port gate. -/
theorem kill_failure_aborts_startup (config : ProjectConfig) (fenv benv : SlotEnv)
    (hf : config.frontend.path ≠ "") (hb : config.backend.path ≠ "")
    (havail : fenv.portAvailable = false)
    (hsel : fenv.portSelection = PortSelection.killProcess)
    (hkill : fenv.killSucceeds = false) :
    StartServers.checkPort fenv.portAvailable fenv.portSelection fenv.killSucceeds =
      false ∧
    StartServers.startServers config true fenv benv =
      StartOutcome.abortedPort SlotKind.frontend := by
  have hc : StartServers.checkPort fenv.portAvailable fenv.portSelection
      fenv.killSucceeds = false := by
    rw [havail, hsel, hkill]
    rfl
  refine ⟨hc, ?_⟩
  rw [StartServers.startServers, if_neg (by simp [hf, hb]), if_neg (by simp)]
  simp [hc]

/-- Witness for C6's amended claim at the concrete kill-failure environment. -/
theorem kill_failure_aborts_startup_witness :
    StartServers.checkPort killFailEnv.portAvailable killFailEnv.portSelection
        killFailEnv.killSucceeds = false ∧
    StartServers.startServers basicConfig true killFailEnv plainDirEnv =
      StartOutcome.abortedPort SlotKind.frontend :=
  kill_failure_aborts_startup basicConfig killFailEnv plainDirEnv
    (by decide) (by decide) rfl rfl rfl

/-- A supervisor state in which the backend session is active, auto-restart
is on, one crash already happened, and a backoff restart timer is pending. -/
def pendingTimerState : ProviderState :=
  { emptyProviderState with
      terminals := [("back", ⟨7, "back", SlotKind.backend, "/srv"⟩)],
      restartCounts := [("back", 1)],
      lastCommands := [("back", ⟨"npm run dev", "/srv", SlotKind.backend⟩)],
      autoRestartEnabled := true,
      nextTermId := 8,
      pendingRestarts := [⟨"back", 4000, ⟨"npm run dev", "/srv", SlotKind.backend⟩⟩] }

/-- Behavior exhibited for claim C3 (the code bug): after disposeAll the
active set is empty and a host-reported close of the disposed session is a
no-op, but the already-scheduled backoff timer, whose callback re-checks
nothing, still fires: it creates a fresh session for the stopped key and
re-sends the recorded command. -/
theorem stopall_pending_timer_still_restarts :
    (TerminalProvider.disposeAll pendingTimerState).terminals = [] ∧
    TerminalProvider.onDidCloseTerminal
        (TerminalProvider.disposeAll pendingTimerState) 7 =
      TerminalProvider.disposeAll pendingTimerState ∧
    lookupKey "back"
        (TerminalProvider.fireRestartTimer (TerminalProvider.disposeAll pendingTimerState)
          ⟨"back", 4000, ⟨"npm run dev", "/srv", SlotKind.backend⟩⟩).terminals =
      some ⟨8, "back", SlotKind.backend, "/srv"⟩ ∧
    (TerminalProvider.fireRestartTimer (TerminalProvider.disposeAll pendingTimerState)
        ⟨"back", 4000, ⟨"npm run dev", "/srv", SlotKind.backend⟩⟩).sentTexts =
      [(8, "npm run dev")] := by decide

/-- A supervisor state with an active backend session and two crashes already
counted for it. -/
def twoCrashState : ProviderState :=
  { emptyProviderState with
      terminals := [("back", ⟨7, "back", SlotKind.backend, "/srv"⟩)],
      restartCounts := [("back", 2)],
      lastCommands := [("back", ⟨"npm run dev", "/srv", SlotKind.backend⟩)],
      autoRestartEnabled := true,
      nextTermId := 8 }

/-- Counterexample to claim C4: neither a clean user-initiated stop of the
key nor disabling auto-restart resets the consecutive crash count to zero —
after both, the stored count is still 2. -/
theorem stop_does_not_reset_crash_count :
    lookupKey "back"
        (TerminalProvider.disposeTerminal twoCrashState "back").restartCounts =
      some 2 ∧
    lookupKey "back"
        (TerminalProvider.setAutoRestart twoCrashState false).restartCounts =
      some 2 := by decide

theorem createTerminal_restartCounts (s : ProviderState) (name cwd : String)
    (ty : SlotKind) :
    (TerminalProvider.createTerminal s name cwd ty).1.restartCounts = s.restartCounts := by
  rw [TerminalProvider.createTerminal]
  cases lookupKey name s.terminals <;> rfl

theorem runCommand_restartCounts (s : ProviderState) (name command : String) :
    (TerminalProvider.runCommand s name command).restartCounts = s.restartCounts := by
  rw [TerminalProvider.runCommand]
  cases lookupKey name s.terminals <;> rfl

/-- Claim C4 as amended: the per-key consecutive crash count is never reset
at all — a clean stop of the key, stopAll, disabling auto-restart, creating
or running a session again, and a fired restart timer all leave restartCounts
unchanged; only handlePotentialCrash ever writes it (by incrementing).  After
stop(key), a later crash sequence therefore has only the remaining budget,
not a fresh budget of three. -/
theorem crash_count_never_reset (s : ProviderState) (name cwd command : String)
    (ty : SlotKind) (b : Bool) (pr : PendingRestart) :
    (TerminalProvider.disposeTerminal s name).restartCounts = s.restartCounts ∧
    (TerminalProvider.disposeAll s).restartCounts = s.restartCounts ∧
    (TerminalProvider.setAutoRestart s b).restartCounts = s.restartCounts ∧
    (TerminalProvider.createTerminal s name cwd ty).1.restartCounts = s.restartCounts ∧
    (TerminalProvider.runCommand s name command).restartCounts = s.restartCounts ∧
    (TerminalProvider.fireRestartTimer s pr).restartCounts = s.restartCounts := by
  refine ⟨?_, rfl, rfl, createTerminal_restartCounts s name cwd ty,
    runCommand_restartCounts s name command, ?_⟩
  · rw [TerminalProvider.disposeTerminal]
    cases lookupKey name s.terminals <;> rfl
  · rw [TerminalProvider.fireRestartTimer]
    rw [runCommand_restartCounts, createTerminal_restartCounts]

theorem eraseKey_idem {α : Type} (k : String) (l : List (String × α)) :
    eraseKey k (eraseKey k l) = eraseKey k l := by
  induction l with
  | nil => rfl
  | cons p rest ih =>
    by_cases h : p.1 = k
    · simp [eraseKey, h, ih]
    · simp [eraseKey, h, ih]

theorem createTerminal_spec (s : ProviderState) (name cwd : String) (ty : SlotKind) :
    TerminalProvider.createTerminal s name cwd ty =
      ({ s with
          terminals :=
            eraseKey name s.terminals ++ [(name, ⟨s.nextTermId, name, ty, cwd⟩)],
          outputBuffer := insertKey name "" s.outputBuffer,
          nextTermId := s.nextTermId + 1 }, s.nextTermId) := by
  cases h : lookupKey name s.terminals <;>
    simp [TerminalProvider.createTerminal, h, insertKey, eraseKey_idem]

theorem fireRestartTimer_replays (t : ProviderState) (pr : PendingRestart) :
    lookupKey pr.name (TerminalProvider.fireRestartTimer t pr).terminals =
      some ⟨t.nextTermId, pr.name, pr.cmd.type, pr.cmd.cwd⟩ ∧
    (TerminalProvider.fireRestartTimer t pr).sentTexts =
      t.sentTexts ++ [(t.nextTermId, pr.cmd.command)] ∧
    lookupKey pr.name (TerminalProvider.fireRestartTimer t pr).lastCommands =
      some ⟨pr.cmd.command, pr.cmd.cwd, pr.cmd.type⟩ := by
  have hlook :
      lookupKey pr.name
        (eraseKey pr.name t.terminals ++
          [(pr.name, (⟨t.nextTermId, pr.name, pr.cmd.type, pr.cmd.cwd⟩ : TerminalInfo))]) =
      some ⟨t.nextTermId, pr.name, pr.cmd.type, pr.cmd.cwd⟩ :=
    lookupKey_insertKey_self pr.name _ t.terminals
  simp only [TerminalProvider.fireRestartTimer, createTerminal_spec,
    TerminalProvider.runCommand]
  simp [hlook, lookupKey_insertKey_self]

/-- Claim C1: with auto-restart enabled and a last command recorded for the
key, a host-reported close of that key's session with crash count below 3
schedules exactly one restart timer, with delay (count + 1) * 2000 ms (2s,
4s, 6s for the first, second and third attempt), carrying the recorded
command, working directory and kind — and firing such a timer creates the
new session in that directory with that kind and re-sends that command; a
close arriving with the count at 3 only appends the terminal failure
notification and schedules nothing. -/
theorem crash_close_schedules_bounded_backoff (s : ProviderState) (closedId : Nat)
    (key : String) (info : TerminalInfo) (cmd : LastCommand) (count : Nat)
    (hfind : TerminalProvider.findByTermId closedId s.terminals = some (key, info))
    (hauto : s.autoRestartEnabled = true)
    (hcmd : lookupKey key s.lastCommands = some cmd)
    (hcount : (lookupKey key s.restartCounts).getD 0 = count) :
    (count < 3 →
      TerminalProvider.onDidCloseTerminal s closedId =
        { s with
            terminals := eraseKey key s.terminals,
            restartCounts := insertKey key (count + 1) s.restartCounts,
            pendingRestarts :=
              s.pendingRestarts ++ [⟨key, (count + 1) * 2000, cmd⟩] }) ∧
    (3 ≤ count →
      TerminalProvider.onDidCloseTerminal s closedId =
        { s with
            terminals := eraseKey key s.terminals,
            notifications :=
              s.notifications ++ [TerminalProvider.crashFailureMessage key] }) ∧
    (∀ (t : ProviderState) (pr : PendingRestart),
      lookupKey pr.name (TerminalProvider.fireRestartTimer t pr).terminals =
        some ⟨t.nextTermId, pr.name, pr.cmd.type, pr.cmd.cwd⟩ ∧
      (TerminalProvider.fireRestartTimer t pr).sentTexts =
        t.sentTexts ++ [(t.nextTermId, pr.cmd.command)] ∧
      lookupKey pr.name (TerminalProvider.fireRestartTimer t pr).lastCommands =
        some ⟨pr.cmd.command, pr.cmd.cwd, pr.cmd.type⟩) := by
  refine ⟨fun hlt => ?_, fun hge => ?_, fireRestartTimer_replays⟩
  · have hn : ¬ 3 ≤ count := by omega
    rw [TerminalProvider.onDidCloseTerminal, hfind]
    simp [TerminalProvider.handlePotentialCrash, hauto, hcmd, hcount, hn]
  · rw [TerminalProvider.onDidCloseTerminal, hfind]
    simp [TerminalProvider.handlePotentialCrash, hauto, hcmd, hcount, hge]

/-- A one-session state with the given crash count already recorded for the
backend key. -/
def crashState (count : Nat) : ProviderState :=
  { emptyProviderState with
      terminals := [("back", ⟨7, "back", SlotKind.backend, "/srv"⟩)],
      restartCounts := [("back", count)],
      lastCommands := [("back", ⟨"npm run dev", "/srv", SlotKind.backend⟩)],
      autoRestartEnabled := true,
      nextTermId := 8 }

/-- Witness for C1: the three consecutive closes schedule delays 2000, 4000
and 6000 ms, and the close at count 3 schedules nothing and shows the
terminal failure notification. -/
theorem crash_close_schedules_bounded_backoff_witness :
    (TerminalProvider.onDidCloseTerminal (crashState 0) 7).pendingRestarts =
      [⟨"back", 2000, ⟨"npm run dev", "/srv", SlotKind.backend⟩⟩] ∧
    (TerminalProvider.onDidCloseTerminal (crashState 1) 7).pendingRestarts =
      [⟨"back", 4000, ⟨"npm run dev", "/srv", SlotKind.backend⟩⟩] ∧
    (TerminalProvider.onDidCloseTerminal (crashState 2) 7).pendingRestarts =
      [⟨"back", 6000, ⟨"npm run dev", "/srv", SlotKind.backend⟩⟩] ∧
    (TerminalProvider.onDidCloseTerminal (crashState 3) 7).pendingRestarts = [] ∧
    (TerminalProvider.onDidCloseTerminal (crashState 3) 7).notifications =
      [TerminalProvider.crashFailureMessage "back"] := by
  have h0 := (crash_close_schedules_bounded_backoff (crashState 0) 7 "back"
    ⟨7, "back", SlotKind.backend, "/srv"⟩ ⟨"npm run dev", "/srv", SlotKind.backend⟩ 0
    rfl rfl rfl rfl).1 (by decide)
  have h1 := (crash_close_schedules_bounded_backoff (crashState 1) 7 "back"
    ⟨7, "back", SlotKind.backend, "/srv"⟩ ⟨"npm run dev", "/srv", SlotKind.backend⟩ 1
    rfl rfl rfl rfl).1 (by decide)
  have h2 := (crash_close_schedules_bounded_backoff (crashState 2) 7 "back"
    ⟨7, "back", SlotKind.backend, "/srv"⟩ ⟨"npm run dev", "/srv", SlotKind.backend⟩ 2
    rfl rfl rfl rfl).1 (by decide)
  have h3 := (crash_close_schedules_bounded_backoff (crashState 3) 7 "back"
    ⟨7, "back", SlotKind.backend, "/srv"⟩ ⟨"npm run dev", "/srv", SlotKind.backend⟩ 3
    rfl rfl rfl rfl).2.1 (by decide)
  exact ⟨by rw [h0]; decide, by rw [h1]; decide, by rw [h2]; decide,
    by rw [h3]; decide, by rw [h3]; decide⟩
